import Mathlib

/-!
Verification of the job orchestration and status-persistence subsystem of an
infrastructure provisioning service.  The Lean definitions below are a shallow
embedding of the Python sources:

  * `backend/app/jobs/jobs.py`        — request-id normalizer, create/destroy flows
  * `backend/app/services/db_utils.py` — status-log upsert and resource insert
  * `backend/app/services/terraform_utils.py` — workspace builder, pipeline runner

External effects (database writes that may raise, subprocess invocations, the
per-process string hash) are made explicit parameters so that control flow and
state updates of the Python code are captured exactly.
-/

namespace AWSTF

/-! ## Request normalizer (jobs.py, normalize_request_id)

The Python code is

    def normalize_request_id(device_id: str) -> int:
        try:
            return int(device_id)
        except:
            return abs(hash(device_id)) % (10 ** 8)

`pyInt?` models the semantics of `int(s)` on ASCII inputs: surrounding
whitespace is stripped, an optional sign is read, then a nonempty digit run in
which single underscores may separate digits.  `hash` is the per-process string
hash, passed in as a function parameter `pyhash` because CPython randomizes it
per interpreter start. -/

def isPySpace (c : Char) : Bool :=
  c = ' ' || c = '\t' || c = '\n' || c = '\r' || c = '\x0b' || c = '\x0c'

/-- Digit value of an ASCII digit character. -/
def digitVal (c : Char) : Nat := c.toNat - 48

/-- Continue parsing a Python integer literal after at least one digit:
further digits, optionally separated by single underscores. -/
def parseDigitTail (acc : Nat) : List Char → Option Nat
  | [] => some acc
  | '_' :: c :: rest =>
      if c.isDigit then parseDigitTail (acc * 10 + digitVal c) rest else none
  | ['_'] => none
  | c :: rest =>
      if c.isDigit then parseDigitTail (acc * 10 + digitVal c) rest else none

/-- Parse a nonempty run of ASCII digits with optional single underscore
separators, as accepted by Python `int`. -/
def parseDigits : List Char → Option Nat
  | [] => none
  | c :: rest => if c.isDigit then parseDigitTail (digitVal c) rest else none

/-- Semantics of Python `int(s)` on ASCII strings: `some n` when the string
parses, `none` when `int` raises `ValueError`. -/
def pyInt? (s : String) : Option Int :=
  let cs := (((s.toList.dropWhile isPySpace).reverse.dropWhile isPySpace).reverse)
  match cs with
  | '+' :: rest => (parseDigits rest).map (fun n => (n : Int))
  | '-' :: rest => (parseDigits rest).map (fun n => -(n : Int))
  | rest => (parseDigits rest).map (fun n => (n : Int))

/-- Embedding of `normalize_request_id`.  `pyhash` is the process string hash
(`hash` builtin); the fallback branch is `abs(hash(device_id)) % (10 ** 8)`. -/
def normalize_request_id (pyhash : String → Int) (device_id : String) : Int :=
  match pyInt? device_id with
  | some n => n
  | none => (((pyhash device_id).natAbs % 10 ^ 8 : Nat) : Int)

/-! ### Claims about the normalizer -/

/-- C5: for every device-identifier string that parses as an integer,
`normalize_request_id` returns exactly the integer it denotes, sign preserved
as given, independently of the process hash. -/
theorem normalize_numeric_eq_int (pyhash : String → Int) (d : String) (n : Int)
    (h : pyInt? d = some n) : normalize_request_id pyhash d = n := by
  simp [normalize_request_id, h]

/-- Witness for C5 at the concrete numeric inputs 42 and -7. -/
theorem normalize_numeric_eq_int_witness :
    normalize_request_id (fun _ => 0) "42" = 42 ∧
    normalize_request_id (fun _ => 99) "-7" = -7 :=
  ⟨normalize_numeric_eq_int (fun _ => 0) "42" 42 (by decide),
   normalize_numeric_eq_int (fun _ => 99) "-7" (-7) (by decide)⟩

/-- C6: the fallback value always lies in the interval from 0 inclusive to
10^8 exclusive, but it is a function of the per-process string hash: two
processes whose hash functions differ on the non-numeric input "abc" produce
different normalized ids, so the code does not satisfy the claimed determinism
across process restarts. -/
theorem normalize_fallback_range_and_process_hash_dependence :
    (∀ (pyhash : String → Int) (d : String), pyInt? d = none →
      0 ≤ normalize_request_id pyhash d ∧ normalize_request_id pyhash d < 10 ^ 8) ∧
    normalize_request_id (fun _ => 0) "abc" ≠ normalize_request_id (fun _ => 1) "abc" := by
  refine ⟨fun pyhash d h => ?_, by decide⟩
  simp only [normalize_request_id, h]
  constructor
  · exact Int.natCast_nonneg _
  · exact_mod_cast Nat.mod_lt _ (by norm_num)

/-- Witness for C6 at the concrete non-numeric input "abc" with a fixed
process hash. -/
theorem normalize_fallback_range_witness :
    0 ≤ normalize_request_id (fun _ => 12345) "abc" ∧
    normalize_request_id (fun _ => 12345) "abc" < 10 ^ 8 :=
  normalize_fallback_range_and_process_hash_dependence.1
    (fun _ => 12345) "abc" (by decide)

/-- C9 counterexample: the claim that `normalize_request_id` returns a
nonnegative integer for every device-identifier string fails at the numeric
input "-5", whose sign is preserved. -/
theorem normalize_negative_counterexample :
    normalize_request_id (fun _ => 0) "-5" < 0 := by decide

/-- C9 amended: `normalize_request_id` returns a nonnegative integer for every
device-identifier string that does not parse as a negative integer; numeric
strings keep the sign given, so negative numeric strings yield negative ids. -/
theorem normalize_nonneg_unless_negative_numeric (pyhash : String → Int)
    (d : String) (h : ∀ n, pyInt? d = some n → 0 ≤ n) :
    0 ≤ normalize_request_id pyhash d := by
  unfold normalize_request_id
  cases hp : pyInt? d with
  | some n => exact h n hp
  | none => exact Int.natCast_nonneg _

/-- Witness for the amended C9 at the non-numeric input "abc". -/
theorem normalize_nonneg_unless_negative_numeric_witness :
    0 ≤ normalize_request_id (fun _ => 7) "abc" :=
  normalize_nonneg_unless_negative_numeric (fun _ => 7) "abc"
    (by intro n hn; rw [show pyInt? "abc" = none by decide] at hn; exact Option.noConfusion hn)

/-! ## Status store (db_utils.py)

Rows of the `request_status_logs` and `request_resources` tables.  Timestamps
are abstract instants (`Nat`); durations are rationals standing for the float
seconds.  The autoincrement primary keys are modelled by `nextLogId` and
`nextResourceId` counters in the database state (Postgres serial keys start at
1 and grow). -/

structure LogRow where
  log_id : Nat
  request_id : Int
  user_id : String
  status : String
  duration_seconds : Option Rat
  error_message : Option String
  created_at : Nat
  updated_at : Nat
deriving Repr, DecidableEq

structure ResourceRow where
  resource_id : Nat
  log_id : Nat
  resource_type : String
  resource_name : String
  resource_id_value : String
  created_at : Nat
deriving Repr, DecidableEq

structure DB where
  logs : List LogRow
  nextLogId : Nat
  resources : List ResourceRow
  nextResourceId : Nat
  cache : List (String × String)
deriving Repr, DecidableEq

/-- Best-effort Redis mirror: `SET job:<request_id> status` overwrites any
previous value of the key. -/
def cacheSet (c : List (String × String)) (k v : String) : List (String × String) :=
  (c.filter (fun p => p.1 ≠ k)) ++ [(k, v)]

/-- The UPDATE branch of `log_request`: `status`, `duration_seconds`,
`error_message` are set to the values passed in this call and `updated_at` is
refreshed; every other column is left alone. -/
def updateRow (r : LogRow) (status : String) (dur : Option Rat)
    (err : Option String) (now : Nat) : LogRow :=
  { r with status := status, duration_seconds := dur,
           error_message := err, updated_at := now }

/-- The INSERT branch of `log_request`: a fresh row with the autoincrement key,
`created_at` defaulted to now when not supplied (Python `created_at or
datetime.utcnow()`), and `updated_at` server-defaulted to now. -/
def insertLog (db : DB) (request_id : Int) (user_id status : String)
    (dur : Option Rat) (err : Option String) (created_at : Option Nat)
    (now : Nat) : Nat × DB :=
  (db.nextLogId,
   { db with
      logs := db.logs ++
        [⟨db.nextLogId, request_id, user_id, status, dur, err,
          created_at.getD now, now⟩],
      nextLogId := db.nextLogId + 1,
      cache := cacheSet db.cache ("job:" ++ toString request_id) status })

/-- Embedding of `log_request` (db_utils.py).  It selects the first row whose
`request_id` matches (`scalar()` of the SELECT); on a truthy `log_id` it runs
the UPDATE keyed by `log_id`, otherwise it inserts.  After the transaction the
status is mirrored into the cache.  Returns the row key and the new state. -/
def log_request (db : DB) (request_id : Int) (user_id status : String)
    (duration_seconds : Option Rat) (error_message : Option String)
    (created_at : Option Nat) (now : Nat) : Nat × DB :=
  match db.logs.find? (fun r => r.request_id == request_id) with
  | some row =>
      if row.log_id = 0 then
        insertLog db request_id user_id status duration_seconds error_message
          created_at now
      else
        (row.log_id,
         { db with
            logs := db.logs.map (fun r =>
              if r.log_id == row.log_id then
                updateRow r status duration_seconds error_message now
              else r),
            cache := cacheSet db.cache ("job:" ++ toString request_id) status })
  | none =>
      insertLog db request_id user_id status duration_seconds error_message
        created_at now

/-- Embedding of `log_resource` (db_utils.py): unconditionally appends one
child `request_resources` row for the given log key. -/
def log_resource (db : DB) (log_id : Nat)
    (resource_type resource_name resource_id_value : String) (now : Nat) : DB :=
  { db with
     resources := db.resources ++
       [⟨db.nextResourceId, log_id, resource_type, resource_name,
         resource_id_value, now⟩],
     nextResourceId := db.nextResourceId + 1 }

/-! ### List helper lemmas used for the upsert proofs -/

/-- Searching an appended list when the first part has no match. -/
theorem find_append_of_none {α : Type} (p : α → Bool) (l₁ l₂ : List α)
    (h : l₁.find? p = none) : (l₁ ++ l₂).find? p = l₂.find? p := by
  induction l₁ with
  | nil => rfl
  | cons a l ih =>
      rw [List.cons_append]
      rw [List.find?_cons] at h ⊢
      cases hpa : p a with
      | true => simp [hpa] at h
      | false =>
          simp only [hpa] at h ⊢
          exact ih h

/-- Mapping a function that preserves the searched field commutes with the
search. -/
theorem find_map_pres (g : LogRow → LogRow)
    (hg : ∀ r, (g r).request_id = r.request_id) (l : List LogRow) (rid : Int) :
    (l.map g).find? (fun r => r.request_id == rid)
      = (l.find? (fun r => r.request_id == rid)).map g := by
  induction l with
  | nil => rfl
  | cons a l ih =>
      rw [List.map_cons, List.find?_cons, List.find?_cons]
      cases hpa : ((a.request_id == rid) : Bool) with
      | true => simp [hg a, hpa]
      | false => simp [hg a, hpa, ih]

/-- An update keyed by a `log_id` larger than every key in the list changes
nothing. -/
theorem map_update_of_lt (l : List LogRow) (n : Nat) (f : LogRow → LogRow)
    (h : ∀ r ∈ l, r.log_id < n) :
    l.map (fun r => if r.log_id == n then f r else r) = l := by
  induction l with
  | nil => rfl
  | cons a l ih =>
      have ha : (a.log_id == n) = false :=
        beq_eq_false_iff_ne.mpr (Nat.ne_of_lt (h a (List.mem_cons_self a l)))
      rw [List.map_cons, ha, ih (fun r hr => h r (List.mem_cons_of_mem a hr))]
      simp

/-- On the update path, `log_request` returns the key of the first matching
row and the first matching row afterwards carries exactly the passed status,
duration and error message with `updated_at` refreshed. -/
theorem log_request_update_find (db : DB) (rid : Int) (u s : String)
    (dd : Option Rat) (em : Option String) (now : Nat) (row : LogRow)
    (hfind : db.logs.find? (fun r => r.request_id == rid) = some row)
    (hnz : row.log_id ≠ 0) :
    (log_request db rid u s dd em none now).1 = row.log_id ∧
    (log_request db rid u s dd em none now).2.logs.find?
        (fun r => r.request_id == rid) = some (updateRow row s dd em now) := by
  unfold log_request
  rw [hfind]
  dsimp only
  rw [if_neg hnz]
  refine ⟨rfl, ?_⟩
  rw [find_map_pres _ (fun r => by unfold updateRow; split <;> rfl) _ _, hfind]
  simp [updateRow]

/-- On the insert path, `log_request` returns the fresh autoincrement key and
afterwards the first matching row is the freshly inserted one. -/
theorem log_request_insert_find (db : DB) (rid : Int) (u s : String)
    (dd : Option Rat) (em : Option String) (now : Nat)
    (hfresh : db.logs.find? (fun r => r.request_id == rid) = none) :
    (log_request db rid u s dd em none now).1 = db.nextLogId ∧
    (log_request db rid u s dd em none now).2.logs
        = db.logs ++ [⟨db.nextLogId, rid, u, s, dd, em, now, now⟩] ∧
    (log_request db rid u s dd em none now).2.logs.find?
        (fun r => r.request_id == rid)
        = some ⟨db.nextLogId, rid, u, s, dd, em, now, now⟩ ∧
    (log_request db rid u s dd em none now).2.nextLogId = db.nextLogId + 1 := by
  unfold log_request
  rw [hfresh]
  refine ⟨rfl, rfl, ?_, rfl⟩
  simp only [insertLog]
  rw [find_append_of_none _ _ _ hfresh]
  simp

/-! ### Claims about the upsert -/

/-- C1: calling `log_request` twice with the same `request_id` on a store with
no row for that id leaves exactly one row for the id.  The first call inserts
the row and returns its key; the second call updates status, duration, error
message and `updated_at` in place on that same row and returns the same key,
creating no second row. -/
theorem log_request_upsert_twice (db : DB) (rid : Int)
    (u1 s1 u2 s2 : String) (d1 d2 : Option Rat) (e1 e2 : Option String)
    (t1 t2 : Nat)
    (hfresh : db.logs.find? (fun r => r.request_id == rid) = none)
    (hwf : ∀ r ∈ db.logs, r.log_id < db.nextLogId)
    (hpos : 0 < db.nextLogId) :
    (log_request db rid u1 s1 d1 e1 none t1).1 = db.nextLogId ∧
    (log_request db rid u1 s1 d1 e1 none t1).2.logs
      = db.logs ++ [⟨db.nextLogId, rid, u1, s1, d1, e1, t1, t1⟩] ∧
    (log_request (log_request db rid u1 s1 d1 e1 none t1).2
        rid u2 s2 d2 e2 none t2).1 = db.nextLogId ∧
    (log_request (log_request db rid u1 s1 d1 e1 none t1).2
        rid u2 s2 d2 e2 none t2).2.logs
      = db.logs ++ [⟨db.nextLogId, rid, u1, s2, d2, e2, t1, t2⟩] ∧
    ((log_request (log_request db rid u1 s1 d1 e1 none t1).2
        rid u2 s2 d2 e2 none t2).2.logs.countP
          (fun r => r.request_id == rid)) = 1 := by
  obtain ⟨hk1, hlogs1, hfind1, -⟩ :=
    log_request_insert_find db rid u1 s1 d1 e1 t1 hfresh
  refine ⟨hk1, hlogs1, ?_⟩
  have hnz : (⟨db.nextLogId, rid, u1, s1, d1, e1, t1, t1⟩ : LogRow).log_id ≠ 0 :=
    Nat.pos_iff_ne_zero.mp hpos
  set db1 := (log_request db rid u1 s1 d1 e1 none t1).2 with hdb1
  have hk2 :=
    (log_request_update_find db1 rid u2 s2 d2 e2 t2 _ hfind1 hnz).1
  have hlogs2 :
      (log_request db1 rid u2 s2 d2 e2 none t2).2.logs
        = db.logs ++ [⟨db.nextLogId, rid, u1, s2, d2, e2, t1, t2⟩] := by
    unfold log_request
    rw [hfind1]
    dsimp only
    rw [if_neg hnz]
    rw [hlogs1, List.map_append]
    rw [map_update_of_lt db.logs db.nextLogId _ hwf]
    simp [updateRow]
  refine ⟨hk2, hlogs2, ?_⟩
  rw [hlogs2, List.countP_append]
  have hzero : db.logs.countP (fun r => r.request_id == rid) = 0 := by
    rw [List.countP_eq_zero]
    intro a ha
    have := List.find?_eq_none.mp hfresh a ha
    simpa using this
  rw [hzero]
  simp

/-- Witness for C1: an empty store, request id 5, two concrete writes. -/
theorem log_request_upsert_twice_witness :
    (log_request (⟨[], 1, [], 1, []⟩ : DB) 5 "alice" "create_started"
        none none none 10).1 = 1 ∧
    (log_request (log_request (⟨[], 1, [], 1, []⟩ : DB) 5 "alice"
        "create_started" none none none 10).2 5 "alice" "success"
        (some 3) none none 20).2.logs.countP (fun r => r.request_id == 5) = 1 := by
  have h := log_request_upsert_twice (⟨[], 1, [], 1, []⟩ : DB) 5 "alice"
    "create_started" "alice" "success" none (some 3) none none 10 20
    (by decide) (by intro r hr; exact absurd hr (List.not_mem_nil r)) (by decide)
  exact ⟨h.1, h.2.2.2.2⟩

/-- C10: on the update path `log_request` unconditionally overwrites the stored
`duration_seconds` and `error_message` with the values passed in that call;
passing the defaults (omitted arguments, Python `None`) therefore erases any
previously recorded duration and error message. -/
theorem log_request_update_overwrites_duration_error (db : DB) (rid : Int)
    (u s : String) (now : Nat) (row : LogRow)
    (hfind : db.logs.find? (fun r => r.request_id == rid) = some row)
    (hnz : row.log_id ≠ 0) :
    (log_request db rid u s none none none now).2.logs.find?
        (fun r => r.request_id == rid)
      = some (updateRow row s none none now) ∧
    (updateRow row s none none now).duration_seconds = none ∧
    (updateRow row s none none now).error_message = none := by
  exact ⟨(log_request_update_find db rid u s none none now row hfind hnz).2,
    rfl, rfl⟩

/-- Witness for C10: a store holding a row with a recorded duration and error
message; a later write that omits both erases them. -/
theorem log_request_update_overwrites_witness :
    (log_request
        (⟨[⟨1, 5, "alice", "failed", some 7, some "boom", 10, 10⟩], 2, [], 1, []⟩ : DB)
        5 "alice" "create_started" none none none 20).2.logs.find?
        (fun r => r.request_id == 5)
      = some (updateRow ⟨1, 5, "alice", "failed", some 7, some "boom", 10, 10⟩
          "create_started" none none 20) ∧
    (updateRow ⟨1, 5, "alice", "failed", some 7, some "boom", 10, 10⟩
        "create_started" none none 20).duration_seconds = none ∧
    (updateRow ⟨1, 5, "alice", "failed", some 7, some "boom", 10, 10⟩
        "create_started" none none 20).error_message = none :=
  log_request_update_overwrites_duration_error
    (⟨[⟨1, 5, "alice", "failed", some 7, some "boom", 10, 10⟩], 2, [], 1, []⟩ : DB)
    5 "alice" "create_started" 20
    ⟨1, 5, "alice", "failed", some 7, some "boom", 10, 10⟩ (by decide) (by decide)

/-! ## Workspace builder (terraform_utils.py, generate_root_terraform_files)

The builder is modelled on the contents of the target directory: a list of
(file name, file content) pairs.  The input is `none` when the directory does
not exist and `some files` when it does; the Python code removes an existing
directory with `shutil.rmtree` and recreates it with `os.makedirs`, so in both
cases writing starts from an empty directory.  The four content strings below
are the result of `textwrap.dedent(...)` followed by `.strip() + "\n"` applied
to the literals in the source. -/

/-- Remote-state key written into the backend block: `state/<device_id>.tfstate`. -/
def backendKey (device_id : String) : String :=
  "state/" ++ device_id ++ ".tfstate"

/-- Content of `main.tf`. -/
def main_tf (device_id instance_name : String) : String :=
  "module \"ec2\" \x7b\n" ++
  "  source        = \"/worker/modules/ec2\"\n" ++
  "  ami           = \"ami-0c02fb55956c7d316\"\n" ++
  "  instance_type = \"t3.micro\"\n" ++
  "  instance_name = \"" ++ instance_name ++ "\"\n" ++
  "  device_id     = \"" ++ device_id ++ "\"\n" ++
  "\x7d\n"

/-- Content of `variables.tf`. -/
def variables_tf : String :=
  "variable \"device_id\" \x7b\n" ++
  "  type        = string\n" ++
  "  description = \"Unique device ID\"\n" ++
  "\x7d\n\n" ++
  "variable \"instance_name\" \x7b\n" ++
  "  type        = string\n" ++
  "  description = \"EC2 instance name\"\n" ++
  "\x7d\n"

/-- Content of `outputs.tf`. -/
def outputs_tf : String :=
  "output \"ec2_instance_id\" \x7b\n" ++
  "  value = module.ec2.instance_id\n" ++
  "\x7d\n\n" ++
  "output \"ec2_public_ip\" \x7b\n" ++
  "  value = module.ec2.public_ip\n" ++
  "\x7d\n"

/-- Content of `provider.tf`: tool version constraint, the s3 remote-state
backend with key `state/<device_id>.tfstate`, lock table and encryption, and
the aws provider pinned to the configured region. -/
def provider_tf (device_id bucket region dynamo : String) : String :=
  "terraform \x7b\n" ++
  "  required_version = \">= 1.1.0\"\n\n" ++
  "  backend \"s3\" \x7b\n" ++
  "    bucket         = \"" ++ bucket ++ "\"\n" ++ "    " ++
  "key            = \"" ++ backendKey device_id ++ "\"\n" ++
  "    region         = \"" ++ region ++ "\"\n" ++
  "    dynamodb_table = \"" ++ dynamo ++ "\"\n" ++
  "    encrypt        = true\n" ++
  "  \x7d\n" ++
  "\x7d\n\n" ++
  "provider \"aws\" \x7b\n" ++
  "  region = \"" ++ region ++ "\"\n" ++
  "\x7d\n"

/-- Writing a file with mode "w": any file of the same name is replaced. -/
def writeFile (fs : List (String × String)) (name content : String) :
    List (String × String) :=
  (fs.filter (fun p => p.1 ≠ name)) ++ [(name, content)]

/-- Embedding of `generate_root_terraform_files`: an existing target directory
is removed recursively (`shutil.rmtree`), the directory is (re)created, and the
four files are written in order. -/
def generate_root_terraform_files (dir : Option (List (String × String)))
    (device_id instance_name bucket region dynamo : String) :
    List (String × String) :=
  let fs : List (String × String) :=
    match dir with
    | some _ => []      -- rmtree then makedirs: start from an empty directory
    | none => []        -- makedirs creates the directory empty
  let fs := writeFile fs "main.tf" (main_tf device_id instance_name)
  let fs := writeFile fs "variables.tf" variables_tf
  let fs := writeFile fs "outputs.tf" outputs_tf
  writeFile fs "provider.tf" (provider_tf device_id bucket region dynamo)

/-- C8: for every prior state of the target directory the builder produces
exactly the four files — root module, variables, outputs, provider/backend —
with nothing merged from the previous contents, and the provider/backend file
embeds the remote-state key `state/<device_id>.tfstate` verbatim. -/
theorem generate_files_exact (dir : Option (List (String × String)))
    (device_id instance_name bucket region dynamo : String) :
    generate_root_terraform_files dir device_id instance_name bucket region dynamo
      = [("main.tf", main_tf device_id instance_name),
         ("variables.tf", variables_tf),
         ("outputs.tf", outputs_tf),
         ("provider.tf", provider_tf device_id bucket region dynamo)] ∧
    (generate_root_terraform_files dir device_id instance_name bucket region
        dynamo).length = 4 ∧
    (∃ pre post, provider_tf device_id bucket region dynamo
      = pre ++ ("key            = \""
            ++ ("state/" ++ device_id ++ ".tfstate") ++ "\"\n")
          ++ post) := by
  have hmain :
      generate_root_terraform_files dir device_id instance_name bucket region
        dynamo
        = [("main.tf", main_tf device_id instance_name),
           ("variables.tf", variables_tf),
           ("outputs.tf", outputs_tf),
           ("provider.tf", provider_tf device_id bucket region dynamo)] := by
    cases dir <;> rfl
  refine ⟨hmain, by rw [hmain]; rfl, ?_⟩
  refine ⟨"terraform \x7b\n" ++ "  required_version = \">= 1.1.0\"\n\n" ++
      "  backend \"s3\" \x7b\n" ++ "    bucket         = \"" ++ bucket ++
      "\"\n" ++ "    ",
    "    region         = \"" ++ region ++ "\"\n" ++
      "    dynamodb_table = \"" ++ dynamo ++ "\"\n" ++
      "    encrypt        = true\n" ++ "  \x7d\n" ++ "\x7d\n\n" ++
      "provider \"aws\" \x7b\n" ++ "  region = \"" ++ region ++ "\"\n" ++
      "\x7d\n", ?_⟩
  simp only [provider_tf, backendKey, String.append_assoc]

/-! ## Pipeline runner (terraform_utils.py, run_terraform_commands)

Subprocess outcomes are supplied by a `TfEnv`: the `(returncode, stdout,
stderr)` of each step and the wall-clock durations sampled at the two points
where the Python code computes `(utcnow - start).total_seconds()`.  The
embedding also returns the list of commands actually handed to `_run_cmd`, in
order, so that claims about which steps execute are expressible. -/

structure CmdResult where
  ret : Int
  out : String
  err : String
deriving Repr, DecidableEq

structure TfEnv where
  initRes : CmdResult
  applyRes : CmdResult
  /-- Result of the best-effort `terraform output -json` step; `none` models
  `_run_cmd` raising there, which the bare `except` swallows. -/
  outputRes : Option CmdResult
  /-- Elapsed seconds measured when returning after a failed init. -/
  durInit : Rat
  /-- Elapsed seconds measured right after the apply step. -/
  durApply : Rat

def initCmd : List String := ["terraform", "init", "-input=false"]

def applyCmd (device_id instance_name : String) : List String :=
  ["terraform", "apply", "-auto-approve", "-input=false",
   "-var", "device_id=" ++ device_id,
   "-var", "instance_name=" ++ instance_name]

def outputCmd : List String := ["terraform", "output", "-json"]

def destroyCmd (device_id instance_name : String) : List String :=
  ["terraform", "destroy", "-auto-approve", "-input=false",
   "-var", "device_id=" ++ device_id,
   "-var", "instance_name=" ++ instance_name]

/-- Embedding of `run_terraform_commands`: init, short-circuit on nonzero exit,
apply, short-circuit on nonzero exit, then best-effort output retrieval whose
logs are appended only when it ran without raising.  The returned duration is
the one sampled after apply; the first component mirrors the Python triple
`(success, "\n".join(logs), duration)` and the second lists the commands
executed. -/
def run_terraform_commands (env : TfEnv) (device_id instance_name : String) :
    (Bool × String × Rat) × List (List String) :=
  let logs := [env.initRes.out, env.initRes.err]
  if env.initRes.ret ≠ 0 then
    ((false, String.intercalate "\n" logs, env.durInit), [initCmd])
  else
    let logs := logs ++ [env.applyRes.out, env.applyRes.err]
    if env.applyRes.ret ≠ 0 then
      ((false, String.intercalate "\n" logs, env.durApply),
       [initCmd, applyCmd device_id instance_name])
    else
      match env.outputRes with
      | some r =>
          ((true, String.intercalate "\n" (logs ++ [r.out, r.err]), env.durApply),
           [initCmd, applyCmd device_id instance_name, outputCmd])
      | none =>
          ((true, String.intercalate "\n" logs, env.durApply),
           [initCmd, applyCmd device_id instance_name, outputCmd])

/-- C4: when the init step exits nonzero the pipeline returns immediately with
success false and the combined init stdout and stderr, and neither the apply
step nor the best-effort output step is ever invoked. -/
theorem init_failure_short_circuits (env : TfEnv) (device_id instance_name : String)
    (h : env.initRes.ret ≠ 0) :
    run_terraform_commands env device_id instance_name
      = ((false, env.initRes.out ++ "\n" ++ env.initRes.err, env.durInit),
         [initCmd]) ∧
    applyCmd device_id instance_name ∉
      (run_terraform_commands env device_id instance_name).2 ∧
    outputCmd ∉ (run_terraform_commands env device_id instance_name).2 := by
  have hrun : run_terraform_commands env device_id instance_name
      = ((false, env.initRes.out ++ "\n" ++ env.initRes.err, env.durInit),
         [initCmd]) := by
    unfold run_terraform_commands
    rw [if_pos h]
    rfl
  refine ⟨hrun, ?_, ?_⟩ <;> rw [hrun] <;> simp [applyCmd, initCmd, outputCmd]

/-- Witness for C4 at a concrete failed init. -/
theorem init_failure_short_circuits_witness :
    run_terraform_commands
        ⟨⟨1, "init out", "init err"⟩, ⟨0, "", ""⟩, none, 2, 9⟩ "42" "web1"
      = ((false, "init out" ++ "\n" ++ "init err", 2), [initCmd]) :=
  (init_failure_short_circuits
    ⟨⟨1, "init out", "init err"⟩, ⟨0, "", ""⟩, none, 2, 9⟩ "42" "web1"
    (by decide)).1

/-! ## Job orchestrator (jobs.py)

The collaborators that can raise are made explicit in an `Env`: each database
write carries an optional exception (`some message` means the call raises
before writing anything), and the pipeline either raises or returns the Python
triple `(success, output, duration)`.  `pyhash` is the process string hash used
by the normalizer.  A flow returns `Except (String × DB) (JobResult × DB)`:
`error` is an exception escaping the flow together with the store state at
that moment, `ok` is the returned dict together with the final store state. -/

structure JobResult where
  success : Bool
  output : String
  duration : Rat
deriving Repr, DecidableEq

structure Env where
  pyhash : String → Int
  /-- Exception raised by the initial started-status `log_request`, if any. -/
  initLogExc : Option String
  /-- Exception raised by `generate_root_terraform_files`, if any. -/
  genExc : Option String
  /-- Outcome of the pipeline call: raises, or returns (success, output, duration). -/
  runResult : Except String (Bool × String × Rat)
  /-- Exception raised by the terminal-status `log_request`, if any. -/
  finalLogExc : Option String
  /-- Exception raised by `log_resource`, if any. -/
  resourceExc : Option String
  /-- Exception raised by the `log_request` inside the except handler, if any. -/
  errorLogExc : Option String

/-- The except-branch of `create_server_job`: builds
`error_text = "Unhandled error: " + str(e)`, writes status `error` with that
message and no duration, and returns the zero-duration failure dict. -/
def createExceptHandler (env : Env) (db : DB) (request_id : Int)
    (user : String) (now : Nat) (e : String) :
    Except (String × DB) (JobResult × DB) :=
  match env.errorLogExc with
  | some e2 => .error (e2, db)
  | none =>
      let et := "Unhandled error: " ++ e
      .ok (⟨false, et, 0⟩,
           (log_request db request_id user "error" none (some et) none now).2)

/-- Embedding of `create_server_job`: normalize the id, write
`create_started` (outside the try block), then inside the try block generate
the workspace, run the pipeline, write the terminal status, and on success
insert the resource row; any exception in the try block goes to
`createExceptHandler`. -/
def create_server_job (env : Env) (db : DB)
    (device_id instance_name user : String) (now : Nat) :
    Except (String × DB) (JobResult × DB) :=
  let request_id := normalize_request_id env.pyhash device_id
  match env.initLogExc with
  | some e => .error (e, db)
  | none =>
      let first := log_request db request_id user "create_started" none none none now
      let log_id := first.1
      let db1 := first.2
      match env.genExc with
      | some e => createExceptHandler env db1 request_id user now e
      | none =>
          match env.runResult with
          | .error e => createExceptHandler env db1 request_id user now e
          | .ok (success, output, duration) =>
              match env.finalLogExc with
              | some e => createExceptHandler env db1 request_id user now e
              | none =>
                  let second := log_request db1 request_id user
                    (if success then "success" else "failed")
                    (some duration)
                    (if success then none else some output) none now
                  let db2 := second.2
                  if success then
                    match env.resourceExc with
                    | some e => createExceptHandler env db2 request_id user now e
                    | none =>
                        let db3 := log_resource db2 log_id "EC2" instance_name
                          device_id now
                        .ok (⟨true, output, duration⟩, db3)
                  else
                    .ok (⟨false, output, duration⟩, db2)

/-- The except-branch of `destroy_server_job`, with
`error_text = "Destroy crashed: " + str(e)` and status `destroy_error`. -/
def destroyExceptHandler (env : Env) (db : DB) (request_id : Int)
    (user : String) (now : Nat) (e : String) :
    Except (String × DB) (JobResult × DB) :=
  match env.errorLogExc with
  | some e2 => .error (e2, db)
  | none =>
      let et := "Destroy crashed: " ++ e
      .ok (⟨false, et, 0⟩,
           (log_request db request_id user "destroy_error" none (some et) none now).2)

/-- Embedding of `destroy_server_job`: normalize the id, write
`destroy_started` (outside the try block), run the destroy pipeline, write the
terminal status; exceptions in the try block go to `destroyExceptHandler`.
There is no `log_resource` call anywhere in this flow. -/
def destroy_server_job (env : Env) (db : DB)
    (device_id instance_name user : String) (now : Nat) :
    Except (String × DB) (JobResult × DB) :=
  let request_id := normalize_request_id env.pyhash device_id
  match env.initLogExc with
  | some e => .error (e, db)
  | none =>
      let first := log_request db request_id user "destroy_started" none none none now
      let db1 := first.2
      match env.runResult with
      | .error e => destroyExceptHandler env db1 request_id user now e
      | .ok (success, output, duration) =>
          match env.finalLogExc with
          | some e => destroyExceptHandler env db1 request_id user now e
          | none =>
              let second := log_request db1 request_id user
                (if success then "destroyed" else "destroy_failed")
                (some duration)
                (if success then none else some output) none now
              .ok (⟨success, output, duration⟩, second.2)

/-- The exception escaping the try block of the create flow, if any: the
workspace build, the pipeline call, the terminal-status write, or (on success)
the resource insert. -/
def createTryExc (env : Env) : Option String :=
  match env.genExc with
  | some e => some e
  | none =>
      match env.runResult with
      | .error e => some e
      | .ok (success, _, _) =>
          match env.finalLogExc with
          | some e => some e
          | none => if success then env.resourceExc else none

/-- The store state of a flow outcome, whether the flow returned or raised. -/
def dbOf : Except (String × DB) (JobResult × DB) → DB
  | .error (_, db) => db
  | .ok (_, db) => db

/-- Neither branch of `log_request` touches the resources table. -/
theorem log_request_resources (db : DB) (rid : Int) (u s : String)
    (dd : Option Rat) (em : Option String) (ca : Option Nat) (now : Nat) :
    (log_request db rid u s dd em ca now).2.resources = db.resources := by
  unfold log_request insertLog
  cases db.logs.find? (fun r => r.request_id == rid) with
  | none => rfl
  | some row =>
      dsimp only
      split <;> rfl

/-- Neither branch of `log_request` touches the resource-key counter. -/
theorem log_request_nextResourceId (db : DB) (rid : Int) (u s : String)
    (dd : Option Rat) (em : Option String) (ca : Option Nat) (now : Nat) :
    (log_request db rid u s dd em ca now).2.nextResourceId = db.nextResourceId := by
  unfold log_request insertLog
  cases db.logs.find? (fun r => r.request_id == rid) with
  | none => rfl
  | some row =>
      dsimp only
      split <;> rfl

/-- The destroy flow leaves the resources table untouched on every path. -/
theorem destroy_preserves_resources (env : Env) (db : DB)
    (device_id instance_name user : String) (now : Nat) :
    (dbOf (destroy_server_job env db device_id instance_name user now)).resources
      = db.resources := by
  unfold destroy_server_job destroyExceptHandler
  cases env.initLogExc with
  | some e => rfl
  | none =>
      dsimp only
      cases env.runResult with
      | error e =>
          dsimp only
          cases env.errorLogExc with
          | some e2 => simp [dbOf, log_request_resources]
          | none => simp [dbOf, log_request_resources]
      | ok t =>
          obtain ⟨succ, out, dur⟩ := t
          dsimp only
          cases env.finalLogExc with
          | some e =>
              dsimp only
              cases env.errorLogExc with
              | some e2 => simp [dbOf, log_request_resources]
              | none => simp [dbOf, log_request_resources]
          | none => simp [dbOf, log_request_resources]

/-- C2: when the persistence layer and workspace build do not raise, the
create flow inserts exactly one resource row, with type EC2, the instance
name, and the device id as external identifier, precisely when the pipeline
reports success, and no resource row otherwise; the destroy flow never
inserts a resource row for any input. -/
theorem create_resource_iff_success (env : Env) (db : DB)
    (device_id instance_name user : String) (now : Nat)
    (hinit : env.initLogExc = none) (hgen : env.genExc = none)
    (hfin : env.finalLogExc = none) (hres : env.resourceExc = none)
    (herr : env.errorLogExc = none) :
    (∃ r db', create_server_job env db device_id instance_name user now
        = .ok (r, db') ∧
      ((∃ out dur, env.runResult = .ok (true, out, dur)) →
        ∃ row, db'.resources = db.resources ++ [row] ∧
          row.resource_type = "EC2" ∧ row.resource_name = instance_name ∧
          row.resource_id_value = device_id) ∧
      ((¬ ∃ out dur, env.runResult = .ok (true, out, dur)) →
        db'.resources = db.resources)) ∧
    (∀ (env2 : Env) (db2 : DB) (d2 i2 u2 : String) (n2 : Nat),
      (dbOf (destroy_server_job env2 db2 d2 i2 u2 n2)).resources
        = db2.resources) := by
  refine ⟨?_, fun env2 db2 d2 i2 u2 n2 =>
    destroy_preserves_resources env2 db2 d2 i2 u2 n2⟩
  unfold create_server_job createExceptHandler
  rw [hinit, hgen]
  dsimp only
  cases hrun : env.runResult with
  | error e =>
      rw [herr]
      dsimp only
      refine ⟨_, _, rfl, ?_, ?_⟩
      · rintro ⟨out, dur, hcontra⟩
        exact Except.noConfusion hcontra
      · intro
        simp [log_request_resources]
  | ok t =>
      obtain ⟨succ, out, dur⟩ := t
      rw [hfin]
      dsimp only
      cases succ with
      | false =>
          refine ⟨_, _, rfl, ?_, ?_⟩
          · rintro ⟨out2, dur2, hcontra⟩
            simp at hcontra
          · intro
            simp [log_request_resources]
      | true =>
          rw [hres]
          dsimp only
          refine ⟨_, _, rfl, ?_, ?_⟩
          · intro
            refine ⟨⟨db.nextResourceId,
                (log_request db (normalize_request_id env.pyhash device_id)
                  user "create_started" none none none now).1,
                "EC2", instance_name, device_id, now⟩, ?_, rfl, rfl, rfl⟩
            simp [log_resource, log_request_resources, log_request_nextResourceId]
          · intro hcontra
            exact absurd ⟨out, dur, rfl⟩ hcontra

/-- Witness for C2: a concrete fully successful create run inserts the EC2
resource row, and the destroy part is instantiated concretely as well. -/
theorem create_resource_iff_success_witness :
    (∃ r db', create_server_job
        ⟨fun _ => 0, none, none, .ok (true, "applied", 3), none, none, none⟩
        (⟨[], 1, [], 1, []⟩ : DB) "42" "web1" "alice" 10
        = .ok (r, db') ∧
      ((∃ out dur, (Except.ok (true, "applied", (3 : Rat)) :
            Except String (Bool × String × Rat)) = .ok (true, out, dur)) →
        ∃ row, db'.resources = ([] : List ResourceRow) ++ [row] ∧
          row.resource_type = "EC2" ∧ row.resource_name = "web1" ∧
          row.resource_id_value = "42") ∧
      ((¬ ∃ out dur, (Except.ok (true, "applied", (3 : Rat)) :
            Except String (Bool × String × Rat)) = .ok (true, out, dur)) →
        db'.resources = ([] : List ResourceRow))) ∧
    (∀ (env2 : Env) (db2 : DB) (d2 i2 u2 : String) (n2 : Nat),
      (dbOf (destroy_server_job env2 db2 d2 i2 u2 n2)).resources
        = db2.resources) :=
  create_resource_iff_success
    ⟨fun _ => 0, none, none, .ok (true, "applied", 3), none, none, none⟩
    (⟨[], 1, [], 1, []⟩ : DB) "42" "web1" "alice" 10 rfl rfl rfl rfl rfl

/-- The except handler of the create flow, when its own status write
succeeds, returns the zero-duration failure dict and leaves the first row for
the request id carrying status error and the handled message. -/
theorem createExceptHandler_spec (env : Env) (db : DB) (rid : Int)
    (user : String) (now : Nat) (e : String) (row : LogRow)
    (herr : env.errorLogExc = none)
    (hfind : db.logs.find? (fun r => r.request_id == rid) = some row)
    (hnz : row.log_id ≠ 0) :
    ∃ db' row',
      createExceptHandler env db rid user now e
        = .ok (⟨false, "Unhandled error: " ++ e, 0⟩, db') ∧
      db'.logs.find? (fun r => r.request_id == rid) = some row' ∧
      row'.status = "error" ∧
      row'.error_message = some ("Unhandled error: " ++ e) := by
  refine ⟨(log_request db rid user "error" none
      (some ("Unhandled error: " ++ e)) none now).2,
    updateRow row "error" none (some ("Unhandled error: " ++ e)) now,
    ?_, ?_, rfl, rfl⟩
  · unfold createExceptHandler
    rw [herr]
  · exact (log_request_update_find db rid user "error" none
      (some ("Unhandled error: " ++ e)) now row hfind hnz).2

/-- C3: every exception raised inside the create flow after the initial
create_started write — workspace build, pipeline run, terminal status write,
or resource insert — is caught; the flow writes a status record `error`
carrying the message and returns a failure result whose duration is 0
regardless of elapsed time. -/
theorem create_crash_path_reports_error_and_zero_duration (env : Env) (db : DB)
    (device_id instance_name user : String) (now : Nat) (e : String)
    (hinit : env.initLogExc = none)
    (herr : env.errorLogExc = none)
    (hexc : createTryExc env = some e)
    (hfresh : db.logs.find? (fun r =>
      r.request_id == normalize_request_id env.pyhash device_id) = none)
    (hpos : 0 < db.nextLogId) :
    ∃ db' row,
      create_server_job env db device_id instance_name user now
        = .ok (⟨false, "Unhandled error: " ++ e, 0⟩, db') ∧
      db'.logs.find? (fun r =>
        r.request_id == normalize_request_id env.pyhash device_id) = some row ∧
      row.status = "error" ∧
      row.error_message = some ("Unhandled error: " ++ e) := by
  obtain ⟨hk1, hlogs1, hfind1, -⟩ :=
    log_request_insert_find db (normalize_request_id env.pyhash device_id)
      user "create_started" none none now hfresh
  have hnz1 : ((⟨db.nextLogId, normalize_request_id env.pyhash device_id, user,
      "create_started", none, none, now, now⟩ : LogRow)).log_id ≠ 0 :=
    Nat.pos_iff_ne_zero.mp hpos
  unfold createTryExc at hexc
  unfold create_server_job
  rw [hinit]
  dsimp only
  cases hgen : env.genExc with
  | some e0 =>
      rw [hgen] at hexc
      dsimp only at hexc
      cases hexc
      exact createExceptHandler_spec env _ _ user now e _ herr hfind1 hnz1
  | none =>
      rw [hgen] at hexc
      dsimp only at hexc
      cases hrun : env.runResult with
      | error e0 =>
          rw [hrun] at hexc
          dsimp only at hexc
          cases hexc
          exact createExceptHandler_spec env _ _ user now e _ herr hfind1 hnz1
      | ok t =>
          obtain ⟨succ, out, dur⟩ := t
          rw [hrun] at hexc
          dsimp only at hexc
          cases hfin : env.finalLogExc with
          | some e0 =>
              rw [hfin] at hexc
              dsimp only at hexc
              cases hexc
              exact createExceptHandler_spec env _ _ user now e _ herr hfind1 hnz1
          | none =>
              rw [hfin] at hexc
              dsimp only at hexc
              cases succ with
              | false => exact Option.noConfusion hexc
              | true =>
                  dsimp only
                  obtain ⟨hk2, hfind2⟩ := log_request_update_find
                    (log_request db (normalize_request_id env.pyhash device_id)
                      user "create_started" none none none now).2
                    (normalize_request_id env.pyhash device_id) user "success"
                    (some dur) none now _ hfind1 hnz1
                  cases hresx : env.resourceExc with
                  | none => rw [hresx] at hexc; exact Option.noConfusion hexc
                  | some e0 =>
                      rw [hresx] at hexc
                      cases hexc
                      exact createExceptHandler_spec env _ _ user now e _ herr
                        hfind2 hnz1

/-- Witness for C3: a concrete crash in the workspace build step. -/
theorem create_crash_path_witness :
    ∃ db' row,
      create_server_job
          ⟨fun _ => 0, none, some "boom", .ok (true, "", 0), none, none, none⟩
          (⟨[], 1, [], 1, []⟩ : DB) "42" "web1" "alice" 10
        = .ok (⟨false, "Unhandled error: " ++ "boom", 0⟩, db') ∧
      db'.logs.find? (fun r =>
        r.request_id == normalize_request_id (fun _ => 0) "42") = some row ∧
      row.status = "error" ∧
      row.error_message = some ("Unhandled error: " ++ "boom") :=
  create_crash_path_reports_error_and_zero_duration
    ⟨fun _ => 0, none, some "boom", .ok (true, "", 0), none, none, none⟩
    (⟨[], 1, [], 1, []⟩ : DB) "42" "web1" "alice" 10 "boom"
    rfl rfl rfl (by decide) (by decide)

/-- C7: when the initial started-status write raises, the exception escapes
both flows uncaught and the store is left exactly as it was, so no terminal
status record is ever written for that invocation. -/
theorem initial_log_failure_propagates (env : Env) (db : DB)
    (device_id instance_name user : String) (now : Nat) (e : String)
    (h : env.initLogExc = some e) :
    create_server_job env db device_id instance_name user now
      = .error (e, db) ∧
    destroy_server_job env db device_id instance_name user now
      = .error (e, db) := by
  unfold create_server_job destroy_server_job
  rw [h]
  exact ⟨rfl, rfl⟩

/-- Witness for C7: a concrete failing initial write. -/
theorem initial_log_failure_propagates_witness :
    create_server_job
        ⟨fun _ => 0, some "db down", none, .ok (true, "", 0), none, none, none⟩
        (⟨[], 1, [], 1, []⟩ : DB) "42" "web1" "alice" 10
      = .error ("db down", (⟨[], 1, [], 1, []⟩ : DB)) ∧
    destroy_server_job
        ⟨fun _ => 0, some "db down", none, .ok (true, "", 0), none, none, none⟩
        (⟨[], 1, [], 1, []⟩ : DB) "42" "web1" "alice" 10
      = .error ("db down", (⟨[], 1, [], 1, []⟩ : DB)) :=
  initial_log_failure_propagates
    ⟨fun _ => 0, some "db down", none, .ok (true, "", 0), none, none, none⟩
    (⟨[], 1, [], 1, []⟩ : DB) "42" "web1" "alice" 10 "db down" rfl

end AWSTF
